import Mathlib

/-!
Verification development for the message-analysis engine of
`src/red_flag_detector.py` (class `RedFlagDetector`).

The Python source is shallowly embedded: strings are Lean `String`s
(`String.data : List Char` is the logical model), Python float confidences
are exact rationals (`ℚ` — every literal in the source is a short decimal),
`re.search` over the fixed catalog of patterns is implemented by a small
backtracking engine covering exactly the constructs those patterns use
(literals, alternation `(a|b)`, `\s+`, the class `['\s]`, `.*`, `\?+` and
the zero-width `\b`), and Python's `str in str` test is a contiguous
substring check.  A value that Python would pass as a non-string message
is modelled as `none : Option String`.

The bare `try ... except` blocks of the source are modelled by explicit
boolean parameters (`FailureModel`) saying whether the guarded region
raises; the corresponding `except` branches are translated literally.
-/

namespace RFD

/-- Python `\s` on the ASCII range: space, tab, newline, carriage return,
vertical tab, form feed (all catalog data is ASCII). -/
def pyIsSpace (c : Char) : Bool :=
  c == ' ' || c == '\t' || c == '\n' || c == '\r' ||
    c == Char.ofNat 11 || c == Char.ofNat 12

/-- Python `\w` on the ASCII range: letters, digits and underscore. -/
def isWordChar (c : Char) : Bool :=
  c.isAlphanum || c == '_'

/-- Python `str.lower()` (ASCII case mapping, which covers all catalog data). -/
def pyLower (s : String) : String :=
  ⟨s.data.map Char.toLower⟩

/-- `needlePrefixAt n h`: the chars `n` stand at the very start of `h`. -/
def needlePrefixAt : List Char → List Char → Bool
  | [], _ => true
  | _ :: _, [] => false
  | c :: cs, d :: ds => c == d && needlePrefixAt cs ds

/-- Contiguous-substring test on char lists (Python `n in h` for strings). -/
def containsSub (n : List Char) : List Char → Bool
  | [] => needlePrefixAt n []
  | c :: cs => needlePrefixAt n (c :: cs) || containsSub n cs

/-- Python `needle in hay` for strings. -/
def strIn (needle hay : String) : Bool :=
  containsSub needle.data hay.data

/-- The regex subset used by `red_flag_detector.py`: every pattern of the
source is built from character tests, concatenation, alternation, the
zero-width word boundary `\b`, and starring of a single character test
(`\s+`, `.*`, `\?+` are the only starred constructs in the source). -/
inductive Rx where
  | eps : Rx
  | chr : (Char → Bool) → Rx
  | seq : Rx → Rx → Rx
  | alt : Rx → Rx → Rx
  | many : (Char → Bool) → Rx
  | wordB : Rx

/-- Is the character before the current position a word character?
(`none` = start of the subject.) -/
def optIsWord : Option Char → Bool
  | some c => isWordChar c
  | none => false

/-- Is the character at the current position a word character?
(`[]` = end of the subject.) -/
def headIsWord : List Char → Bool
  | c :: _ => isWordChar c
  | [] => false

/-- `\b` at the point whose previous character is `prev` (none at the start
of the subject) and whose remaining input is `s`: exactly one side is a
word character. -/
def boundaryAt (prev : Option Char) (s : List Char) : Bool :=
  optIsWord prev != headIsWord s

/-- Backtracking loop for `many p`: try the continuation after each number
of `p`-characters consumed. -/
def manyAux (p : Char → Bool) (prev : Option Char) (s : List Char)
    (k : Option Char → List Char → Bool) : Bool :=
  k prev s ||
    match s with
    | [] => false
    | c :: cs => p c && manyAux p (some c) cs k

/-- `matchAt r prev s k`: some way of matching `r` against a prefix of `s`
(with `prev` the character just before `s`, for `\b`) lets the continuation
`k` succeed on the rest. -/
def matchAt : Rx → Option Char → List Char → (Option Char → List Char → Bool) → Bool
  | .eps, prev, s, k => k prev s
  | .chr _, _, [], _ => false
  | .chr p, _, c :: cs, k => p c && k (some c) cs
  | .seq a b, prev, s, k => matchAt a prev s (fun prev2 s2 => matchAt b prev2 s2 k)
  | .alt a b, prev, s, k => matchAt a prev s k || matchAt b prev s k
  | .many p, prev, s, k => manyAux p prev s k
  | .wordB, prev, s, k => boundaryAt prev s && k prev s

/-- Try a match starting at every position of `s` (`prev` is the character
before the current position). -/
def searchAux (r : Rx) (prev : Option Char) (s : List Char) : Bool :=
  matchAt r prev s (fun _ _ => true) ||
    match s with
    | [] => false
    | c :: cs => searchAux r (some c) cs

/-- Python `re.search(r, s) is not None` (boolean form). -/
def rxSearch (r : Rx) (s : String) : Bool :=
  searchAux r none s.data

/-- The source applies every catalog pattern with `re.IGNORECASE`; all the
catalog's literals are lower-case ASCII, so this equals searching the
lower-cased subject. -/
def rxSearchCI (r : Rx) (s : String) : Bool :=
  rxSearch r (pyLower s)

/-- Sequence a list of regexes. -/
def seqs : List Rx → Rx
  | [] => .eps
  | [r] => r
  | r :: rs => .seq r (seqs rs)

/-- Alternation over a list of regexes (the groups `(a|b|c)` of the source). -/
def alts : List Rx → Rx
  | [] => .eps
  | [r] => r
  | r :: rs => .alt r (alts rs)

/-- `\s+` -/
def sp1 : Rx := .seq (.chr pyIsSpace) (.many pyIsSpace)

/-- The character class `['\s]` of the source. -/
def aposSp : Rx := .chr (fun c => c == Char.ofNat 39 || pyIsSpace c)

/-- `.*` (no DOTALL: `.` excludes newline). -/
def anyStar : Rx := .many (fun c => c != '\n')

/-- `\?+` -/
def qplus : Rx := .seq (.chr (fun c => c == '?')) (.many (fun c => c == '?'))

/-- A literal-ish piece of a source pattern, written with `~` for `\s+`,
an apostrophe for the class `['\s]`, and `*` for `.*`; every other
character stands for itself (this covers every pattern of the catalog). -/
def phrase (s : String) : Rx :=
  s.data.foldr
    (fun c r =>
      if c == '~' then .seq sp1 r
      else if c == Char.ofNat 39 then .seq aposSp r
      else if c == '*' then .seq anyStar r
      else .seq (.chr (fun d => d == c)) r)
    .eps

/-- Does the pattern begin with the zero-width `\b`?  (Every catalog
pattern does; used for the whitespace-only-message arguments.) -/
def startsWithWordB : Rx → Bool
  | .seq .wordB _ => true
  | _ => false

/-- `class RiskLevel(Enum)` of the source. -/
inductive RiskLevel where
  | low
  | medium
  | high
  | critical
deriving DecidableEq, Repr

/-- The `.value` string of each `RiskLevel` enum member. -/
def RiskLevel.value : RiskLevel → String
  | .low => "low"
  | .medium => "medium"
  | .high => "high"
  | .critical => "critical"

/-- One regex of the catalog: its Python source text and its embedding. -/
structure Rule where
  src : String
  rx : Rx

/-- The value of one subcategory of the catalog: `{"patterns": [...],
"risk_level": ..., "explanation": ...}`. -/
structure SubPattern where
  patterns : List Rule
  risk_level : RiskLevel
  explanation : String

/-- `@dataclass class RedFlag` of the source. -/
structure RedFlag where
  category : String
  pattern : String
  risk_level : RiskLevel
  explanation : String
  confidence : ℚ
deriving DecidableEq, Repr

/-- `\b(...)\b` -/
def bb (g : Rx) : Rx := seqs [.wordB, g, .wordB]

/-- `\b(...)\b.*\b(...)\b` -/
def bbXbb (g1 g2 : Rx) : Rx := seqs [.wordB, g1, .wordB, anyStar, .wordB, g2, .wordB]

/-- `\b(...).*\b(...)\b` (first group not closed by a boundary). -/
def bXbb (g1 g2 : Rx) : Rx := seqs [.wordB, g1, anyStar, .wordB, g2, .wordB]

/-- A group of phrase alternatives `(p1|p2|...)`. -/
def grp (ps : List String) : Rx := alts (ps.map phrase)

/-- `manipulation.love_bombing` -/
def love_bombing : SubPattern where
  patterns := [
    ⟨"\\b(you['\\s]re\\s+perfect|soulmate|meant\\s+to\\s+be)\\b",
      bb (grp ["you're~perfect", "soulmate", "meant~to~be"])⟩,
    ⟨"\\b(love\\s+you|my\\s+everything)\\b.*\\b(day|week|hour)\\b",
      bbXbb (grp ["love~you", "my~everything"]) (grp ["day", "week", "hour"])⟩,
    ⟨"\\b(never\\s+felt\\s+this\\s+way|you['\\s]re\\s+different)\\b",
      bb (grp ["never~felt~this~way", "you're~different"])⟩,
    ⟨"\\b(you['\\s]re\\s+special|not\\s+like\\s+other\\s+girls)\\b",
      bb (grp ["you're~special", "not~like~other~girls"])⟩,
    ⟨"\\b(can['\\s]t\\s+live\\s+without\\s+you|need\\s+you)\\b",
      bb (grp ["can't~live~without~you", "need~you"])⟩,
    ⟨"\\b(you['\\s]re\\s+my\\s+world|my\\s+everything)\\b",
      bb (grp ["you're~my~world", "my~everything"])⟩,
    ⟨"\\b(destiny|fate|meant\\s+to\\s+be\\s+together)\\b",
      bb (grp ["destiny", "fate", "meant~to~be~together"])⟩]
  risk_level := .high
  explanation := "Love bombing - Excessive romantic declarations too early in conversation"

/-- `manipulation.guilt_tripping` -/
def guilt_tripping : SubPattern where
  patterns := [
    ⟨"\\b(if\\s+you\\s+really\\s+cared|you\\s+don['\\s]t\\s+care)\\b",
      bb (grp ["if~you~really~cared", "you~don't~care"])⟩,
    ⟨"\\b(fine\\s+whatever|forget\\s+it\\s+then)\\b",
      bb (grp ["fine~whatever", "forget~it~then"])⟩,
    ⟨"\\b(you['\\s]re\\s+being\\s+mean|why\\s+are\\s+you\\s+ignoring)\\b",
      bb (grp ["you're~being~mean", "why~are~you~ignoring"])⟩,
    ⟨"\\b(i\\s+thought\\s+you\\s+were\\s+different|guess\\s+i\\s+was\\s+wrong)\\b",
      bb (grp ["i~thought~you~were~different", "guess~i~was~wrong"])⟩]
  risk_level := .high
  explanation := "Guilt tripping - Attempting to manipulate through guilt and emotional pressure"

/-- `manipulation.gaslighting` -/
def gaslighting : SubPattern where
  patterns := [
    ⟨"\\b(you['\\s]re\\s+overreacting|being\\s+dramatic)\\b",
      bb (grp ["you're~overreacting", "being~dramatic"])⟩,
    ⟨"\\b(that\\s+never\\s+happened|you['\\s]re\\s+imagining)\\b",
      bb (grp ["that~never~happened", "you're~imagining"])⟩,
    ⟨"\\b(you['\\s]re\\s+too\\s+sensitive|crazy)\\b",
      bb (grp ["you're~too~sensitive", "crazy"])⟩,
    ⟨"\\b(i\\s+never\\s+said\\s+that|you\\s+misunderstood)\\b",
      bb (grp ["i~never~said~that", "you~misunderstood"])⟩,
    ⟨"\\b(you['\\s]re\\s+being\\s+paranoid|insecure)\\b",
      bb (grp ["you're~being~paranoid", "insecure"])⟩]
  risk_level := .high
  explanation := "Gaslighting - Attempting to make you question your own reality or feelings"

/-- `boundary_violations.persistent_messaging` -/
def persistent_messaging : SubPattern where
  patterns := [
    ⟨"\\b(hello\\?+|hey\\?+|respond\\s+please)\\b",
      bb (alts [.seq (phrase "hello") qplus, .seq (phrase "hey") qplus, phrase "respond~please"])⟩,
    ⟨"\\b(why\\s+aren['\\s]t\\s+you\\s+responding|answer\\s+me)\\b",
      bb (grp ["why~aren't~you~responding", "answer~me"])⟩,
    ⟨"\\b(ignoring\\s+me|reply\\s+to\\s+me)\\b",
      bb (grp ["ignoring~me", "reply~to~me"])⟩]
  risk_level := .medium
  explanation := "Persistent messaging - Not respecting communication boundaries"

/-- `boundary_violations.sexual_content` -/
def sexual_content : SubPattern where
  patterns := [
    ⟨"\\b(send\\s+pics|nudes|sexy\\s+photo)\\b",
      bb (grp ["send~pics", "nudes", "sexy~photo"])⟩,
    ⟨"\\b(what\\s+are\\s+you\\s+wearing|bedroom|naked)\\b",
      bb (grp ["what~are~you~wearing", "bedroom", "naked"])⟩,
    ⟨"\\b(show\\s+me|let\\s+me\\s+see)\\b.*\\b(body|pics)\\b",
      bbXbb (grp ["show~me", "let~me~see"]) (grp ["body", "pics"])⟩,
    ⟨"\\b(you['\\s]re\\s+so\\s+sexy|hot\\s+body)\\b",
      bb (grp ["you're~so~sexy", "hot~body"])⟩,
    ⟨"\\b(turn\\s+me\\s+on|getting\\s+hard)\\b",
      bb (grp ["turn~me~on", "getting~hard"])⟩]
  risk_level := .high
  explanation := "Sexual pressure - Inappropriate sexual requests or comments"

/-- `financial_scams.money_requests` -/
def money_requests : SubPattern where
  patterns := [
    ⟨"\\b(need\\s+money|financial\\s+help|emergency.*money)\\b",
      bb (grp ["need~money", "financial~help", "emergency*money"])⟩,
    ⟨"\\b(send\\s+\\$|venmo|cashapp|paypal|zelle)\\b",
      bb (grp ["send~$", "venmo", "cashapp", "paypal", "zelle"])⟩,
    ⟨"\\b(bitcoin|crypto|investment\\s+opportunity)\\b",
      bb (grp ["bitcoin", "crypto", "investment~opportunity"])⟩,
    ⟨"\\b(stranded|stuck|trapped).*\\b(money|cash|help|funds)\\b",
      bXbb (grp ["stranded", "stuck", "trapped"]) (grp ["money", "cash", "help", "funds"])⟩,
    ⟨"\\b(lend|loan|borrow).*\\b(money|cash|\\$)\\b",
      bXbb (grp ["lend", "loan", "borrow"]) (grp ["money", "cash", "$"])⟩,
    ⟨"\\b(desperate|urgent|immediate).*\\b(money|cash|help)\\b",
      bXbb (grp ["desperate", "urgent", "immediate"]) (grp ["money", "cash", "help"])⟩,
    ⟨"\\b(wire\\s+transfer|money\\s+order|bank\\s+transfer)\\b",
      bb (grp ["wire~transfer", "money~order", "bank~transfer"])⟩]
  risk_level := .critical
  explanation := "Financial scam - Money request detected (major red flag)"

/-- `financial_scams.sophisticated_scams` -/
def sophisticated_scams : SubPattern where
  patterns := [
    ⟨"\\b(stranded|stuck|trapped|lost).*\\b(island|country|airport|hotel)\\b",
      bXbb (grp ["stranded", "stuck", "trapped", "lost"]) (grp ["island", "country", "airport", "hotel"])⟩,
    ⟨"\\b(promise.*repay|guarantee.*return|pay.*back)\\b",
      bb (grp ["promise*repay", "guarantee*return", "pay*back"])⟩,
    ⟨"\\b(temporary.*loan|short.*term|just.*until)\\b",
      bb (grp ["temporary*loan", "short*term", "just*until"])⟩,
    ⟨"\\b(trust.*me|you.*know.*me|good.*for.*it)\\b.*\\b(money|loan)\\b",
      bbXbb (grp ["trust*me", "you*know*me", "good*for*it"]) (grp ["money", "loan"])⟩,
    ⟨"\\b(family.*emergency|medical.*bill|travel.*problems)\\b",
      bb (grp ["family*emergency", "medical*bill", "travel*problems"])⟩,
    ⟨"\\b(inheritance|lottery|prize).*\\b(fee|tax|processing)\\b",
      bXbb (grp ["inheritance", "lottery", "prize"]) (grp ["fee", "tax", "processing"])⟩]
  risk_level := .critical
  explanation := "Sophisticated financial scam - Elaborate story with money request"

/-- `controlling_behavior.personal_info` -/
def personal_info : SubPattern where
  patterns := [
    ⟨"\\b(what['\\s]s\\s+your\\s+address|where\\s+do\\s+you\\s+live)\\b",
      bb (grp ["what's~your~address", "where~do~you~live"])⟩,
    ⟨"\\b(send\\s+your\\s+location|meet\\s+me\\s+now)\\b",
      bb (grp ["send~your~location", "meet~me~now"])⟩,
    ⟨"\\b(give\\s+me\\s+your\\s+number|what['\\s]s\\s+your\\s+phone)\\b",
      bb (grp ["give~me~your~number", "what's~your~phone"])⟩,
    ⟨"\\b(where\\s+do\\s+you\\s+work|what\\s+school)\\b",
      bb (grp ["where~do~you~work", "what~school"])⟩]
  risk_level := .high
  explanation := "Personal information fishing - Requesting sensitive details too early"

/-- `controlling_behavior.isolation` -/
def isolation : SubPattern where
  patterns := [
    ⟨"\\b(don['\\s]t\\s+tell\\s+anyone|keep\\s+this\\s+between\\s+us)\\b",
      bb (grp ["don't~tell~anyone", "keep~this~between~us"])⟩,
    ⟨"\\b(your\\s+friends\\s+don['\\s]t\\s+understand|wouldn['\\s]t\\s+get\\s+it)\\b",
      bb (grp ["your~friends~don't~understand", "wouldn't~get~it"])⟩,
    ⟨"\\b(your\\s+family\\s+wouldn['\\s]t\\s+approve|won['\\s]t\\s+like)\\b",
      bb (grp ["your~family~wouldn't~approve", "won't~like"])⟩,
    ⟨"\\b(nobody\\s+gets\\s+us|they['\\s]re\\s+jealous)\\b",
      bb (grp ["nobody~gets~us", "they're~jealous"])⟩,
    ⟨"\\b(delete\\s+this\\s+conversation|clear\\s+your\\s+history)\\b",
      bb (grp ["delete~this~conversation", "clear~your~history"])⟩]
  risk_level := .high
  explanation := "Isolation tactics - Attempting to separate you from support network"

/-- `pressure_tactics.urgency` -/
def urgency : SubPattern where
  patterns := [
    ⟨"\\b(right\\s+now|immediately|urgent|asap)\\b",
      bb (grp ["right~now", "immediately", "urgent", "asap"])⟩,
    ⟨"\\b(can['\\s]t\\s+wait|need\\s+to\\s+know\\s+now)\\b",
      bb (grp ["can't~wait", "need~to~know~now"])⟩,
    ⟨"\\b(limited\\s+time|act\\s+fast|hurry)\\b",
      bb (grp ["limited~time", "act~fast", "hurry"])⟩,
    ⟨"\\b(before\\s+it['\\s]s\\s+too\\s+late|last\\s+chance)\\b",
      bb (grp ["before~it's~too~late", "last~chance"])⟩,
    ⟨"\\b(decide\\s+now|yes\\s+or\\s+no)\\b",
      bb (grp ["decide~now", "yes~or~no"])⟩]
  risk_level := .medium
  explanation := "Pressure tactics - Creating false urgency to bypass rational thinking"

/-- `aggressive_language.threats` -/
def threats : SubPattern where
  patterns := [
    ⟨"\\b(you['\\s]ll\\s+regret|i['\\s]ll\\s+find\\s+you)\\b",
      bb (grp ["you'll~regret", "i'll~find~you"])⟩,
    ⟨"\\b(bitch|slut|whore|cunt)\\b",
      bb (grp ["bitch", "slut", "whore", "cunt"])⟩,
    ⟨"\\b(i['\\s]ll\\s+kill\\s+you|i['\\s]ll\\s+hurt\\s+you)\\b",
      bb (grp ["i'll~kill~you", "i'll~hurt~you"])⟩,
    ⟨"\\b(you['\\s]re\\s+dead|i['\\s]ll\\s+destroy\\s+you)\\b",
      bb (grp ["you're~dead", "i'll~destroy~you"])⟩,
    ⟨"\\b(watch\\s+your\\s+back|you['\\s]ll\\s+be\\s+sorry)\\b",
      bb (grp ["watch~your~back", "you'll~be~sorry"])⟩]
  risk_level := .critical
  explanation := "Direct threats - Aggressive or threatening language toward recipient"

/-- `_load_patterns`: the full nested catalog, in source (insertion) order. -/
def patterns : List (String × List (String × SubPattern)) := [
  ("manipulation", [
    ("love_bombing", love_bombing),
    ("guilt_tripping", guilt_tripping),
    ("gaslighting", gaslighting)]),
  ("boundary_violations", [
    ("persistent_messaging", persistent_messaging),
    ("sexual_content", sexual_content)]),
  ("financial_scams", [
    ("money_requests", money_requests),
    ("sophisticated_scams", sophisticated_scams)]),
  ("controlling_behavior", [
    ("personal_info", personal_info),
    ("isolation", isolation)]),
  ("pressure_tactics", [
    ("urgency", urgency)]),
  ("aggressive_language", [
    ("threats", threats)])]

/-- The `for pattern in data["patterns"]: if re.search(...): ...; break`
loop of `_detect_patterns`: the first rule of the subcategory that matches. -/
def firstMatch (message : String) : List Rule → Option Rule
  | [] => none
  | r :: rs => if rxSearchCI r.rx message then some r else firstMatch message rs

/-- The body of `_detect_patterns` for one `(category, subcategory)` pair:
one flag for the first matching rule (the `break`), confidence 0.8. -/
def detectSub (message : String) (category subcategory : String) (d : SubPattern) :
    List RedFlag :=
  match firstMatch message d.patterns with
  | some r =>
      [{ category := category ++ "_" ++ subcategory
         pattern := r.src
         risk_level := d.risk_level
         explanation := d.explanation
         confidence := 0.8 }]
  | none => []

/-- `_detect_patterns(message)`: scan the whole catalog in order.  (The
interior `try` of the source cannot raise on this fixed catalog; its
`except` branch, which would return the flags accumulated so far, is not
modelled.) -/
def detect_patterns (message : String) : List RedFlag :=
  patterns.flatMap (fun cs => cs.2.flatMap (fun sd => detectSub message cs.1 sd.1 sd.2))

def stranded_indicators : List String :=
  ["stranded", "stuck", "trapped", "lost", "can't get home", "need to get back"]

def money_indicators : List String :=
  ["money", "cash", "funds", "help", "loan", "borrow", "lend", "$"]

def repayment_indicators : List String :=
  ["pay back", "repay", "return", "guarantee", "promise", "when i get back"]

def future_promises : List String :=
  ["when i get back", "as soon as", "i promise", "i guarantee", "you know i'm good for it"]

def urgency_words : List String :=
  ["urgent", "immediate", "asap", "right now", "today", "desperate"]

def personal_appeals : List String :=
  ["you know me", "we're friends", "trust me", "you're the only one"]

/-- `_analyze_advanced_financial_patterns(message)`, translated clause by
clause (the source lower-cases its argument again even though
`analyze_message` already passes a lower-cased string). -/
def analyze_advanced_financial_patterns (message : String) : List RedFlag :=
  let message_lower := pyLower message
  let has_stranded := stranded_indicators.any (fun i => strIn i message_lower)
  let has_money := money_indicators.any (fun i => strIn i message_lower)
  let has_repayment := repayment_indicators.any (fun i => strIn i message_lower)
  (if has_stranded && has_money then
    [{ category := "financial_scam_stranded"
       pattern := "stranded_money_combination"
       risk_level := .critical
       explanation := "Stranded/stuck story combined with money request - classic advance fee scam"
       confidence := if has_repayment then 0.95 else 0.9 }]
   else []) ++
  (if has_money && future_promises.any (fun p => strIn p message_lower) then
    [{ category := "financial_scam_promise"
       pattern := "money_with_future_promise"
       risk_level := .critical
       explanation := "Money request with future repayment promise - high risk of non-repayment"
       confidence := 0.9 }]
   else []) ++
  (if has_money && urgency_words.any (fun w => strIn w message_lower) &&
      personal_appeals.any (fun a => strIn a message_lower) then
    [{ category := "financial_scam_manipulation"
       pattern := "urgent_personal_money_request"
       risk_level := .critical
       explanation := "Combines urgency, personal connection, and money request - manipulation tactic"
       confidence := 0.95 }]
   else [])

/-- The optional sender context (`sender_info`), with the two keys the
source reads via `.get` already resolved to integers. -/
structure SenderInfo where
  message_frequency : Int
  account_age_days : Int
deriving DecidableEq, Repr

/-- `_analyze_context(message, sender_info)` (the message argument is
unused by the source too). -/
def analyze_context (_message : String) (sender_info : SenderInfo) : List RedFlag :=
  (if sender_info.message_frequency > 5 then
    [{ category := "boundary_violation_spam"
       pattern := "multiple_messages"
       risk_level := .medium
       explanation := "Sending too many messages in short time period"
       confidence := 0.7 }]
   else []) ++
  (if sender_info.account_age_days < 7 then
    [{ category := "suspicious_account"
       pattern := "new_account"
       risk_level := .medium
       explanation := "Very new account - potential fake profile"
       confidence := 0.6 }]
   else [])

def innocent_contexts : List String :=
  ["hurt my back", "hurt myself", "hurt his back", "hurt her back",
   "back hurts", "back pain", "hurt my knee", "hurt my ankle",
   "workout hurt", "exercise hurt", "gym hurt", "pulled muscle",
   "sore", "injured", "sprained", "twisted", "strained",
   "physical therapy", "therapist said", "doctor said"]

def self_injury_patterns : List Rx :=
  [seqs [.wordB, grp ["i", "my", "myself", "me"], sp1, anyStar, .wordB, phrase "hurt", .wordB],
   seqs [.wordB, phrase "hurt", sp1, anyStar, .wordB, grp ["my", "myself", "me"], .wordB],
   seqs [.wordB, grp ["his", "her", "their"], sp1, anyStar, .wordB, phrase "hurt", .wordB]]

def friendly_contexts : List String :=
  ["game", "gaming", "play", "dub", "win", "victory", "match",
   "brothaa", "brotha", "bro", "king", "homie", "buddy", "dude",
   "witness", "witnessed", "crazy good", "insane", "wild",
   "sports", "team", "scored", "goal", "touchdown", "basketball",
   "football", "soccer", "baseball", "tennis", "golf",
   "video", "reel", "movie", "show", "clip", "watch", "saw",
   "youtube", "tiktok", "instagram", "story", "post",
   "funny", "hilarious", "lol", "haha", "joke", "meme",
   "awesome", "amazing", "congrats", "congratulations",
   "glad", "happy", "excited", "stoked"]

def positive_contexts : List String :=
  ["glad you", "happy you", "awesome that you", "great that you",
   "witness", "see", "experience", "enjoy", "celebrate",
   "dub", "win", "victory", "success", "achievement"]

def celebratory_words : List String :=
  ["crazy good", "insane win", "wild victory", "amazing", "awesome"]

def shared_experience_patterns : List Rx :=
  [seqs [.wordB, phrase "glad~you", sp1, grp ["got~to", "could", "were~able~to"], .wordB],
   seqs [.wordB, phrase "witness", sp1, grp ["it", "that", "the"], .wordB],
   seqs [.wordB, phrase "saw", sp1, grp ["it", "that", "the"], .wordB, anyStar, .wordB,
     grp ["person", "live", "firsthand"], .wordB]]

def positive_indicators : List String :=
  ["lol", "haha", "😊", "😄", "🎉", "💪", "👑",
   "awesome", "amazing", "great", "good", "nice",
   "congrats", "celebration", "happy", "glad",
   "excited", "stoked", "pumped", "thrilled"]

def negative_indicators : List String :=
  ["angry", "mad", "furious", "hate", "stupid",
   "idiot", "kill", "die", "hurt", "destroy",
   "revenge", "payback", "sorry", "regret"]

/-- `_is_positive_message_tone(message_lower)`: strictly more occurrences
of positive than negative indicators, and at least one positive one. -/
def is_positive_message_tone (message_lower : String) : Bool :=
  let positive_count := positive_indicators.countP (fun i => strIn i message_lower)
  let negative_count := negative_indicators.countP (fun i => strIn i message_lower)
  positive_count > negative_count && positive_count > 0

/-- Filter rule 1 of `_filter_false_positives` (injury/pain mentions). -/
def fp_injury (message_lower : String) (flag : RedFlag) : Bool :=
  (strIn "hurt" (pyLower flag.category) || strIn "threat" (pyLower flag.category)) &&
    (innocent_contexts.any (fun c => strIn c message_lower) ||
      self_injury_patterns.any (fun p => rxSearch p message_lower))

/-- Filter rule 2 of `_filter_false_positives` (gaming/sports/social slang). -/
def fp_friendly (message_lower : String) (flag : RedFlag) : Bool :=
  (["threat", "aggressive", "hurt", "gaslighting"].any
      (fun w => strIn w (pyLower flag.category))) &&
    friendly_contexts.any (fun c => strIn c message_lower)

/-- Filter rule 3 of `_filter_false_positives` (gaslighting vs celebration). -/
def fp_gaslighting (message_lower : String) (flag : RedFlag) : Bool :=
  strIn "gaslighting" (pyLower flag.category) &&
    ((positive_contexts.any (fun c => strIn c message_lower) ||
       celebratory_words.any (fun w => strIn w message_lower)) ||
      shared_experience_patterns.any (fun p => rxSearch p message_lower))

/-- Filter rule 4 of `_filter_false_positives` (tone-based leniency). -/
def fp_tone (message_lower : String) (flag : RedFlag) : Bool :=
  is_positive_message_tone message_lower &&
    (flag.risk_level == RiskLevel.high && decide (flag.confidence < 0.9))

/-- The `is_false_positive` accumulator of the per-flag loop: the source
sets it to `True` under each of the four rules in turn, so its final value
is their disjunction. -/
def is_false_positive (message_lower : String) (flag : RedFlag) : Bool :=
  fp_injury message_lower flag || fp_friendly message_lower flag ||
    fp_gaslighting message_lower flag || fp_tone message_lower flag

/-- `_filter_false_positives(message, flags)`.  `raises` says whether the
guarded region raises; the `except` branch returns the original list
("If filtering fails, return original flags to be safe"). -/
def filter_false_positives (raises : Bool) (message : String) (flags : List RedFlag) :
    List RedFlag :=
  if raises then flags
  else
    let message_lower := pyLower message
    flags.filter (fun flag => !is_false_positive message_lower flag)

/-- `_generate_recommendations(risk_level, flags)`.  `raises` models the
guarded region raising; the `except` branch replaces the list with one
generic caution string. -/
def generate_recommendations (raises : Bool) (risk_level : RiskLevel)
    (flags : List RedFlag) : List String :=
  if raises then ["Analysis error - exercise general caution"]
  else
    let recommendations : List String :=
      match risk_level with
      | .critical =>
        ["🚨 BLOCK IMMEDIATELY - This person shows dangerous behavior patterns",
         "📸 Screenshot the conversation for evidence",
         "📞 Consider reporting to Instagram and local authorities if threatened",
         "💰 NEVER send money to someone you've only met online"]
      | .high =>
        ["⚠️ PROCEED WITH EXTREME CAUTION",
         "🚫 Do not share personal information",
         "👥 Tell a trusted friend about this interaction",
         "🔒 Consider blocking if behavior continues"]
      | .medium =>
        ["⚡ BE CAUTIOUS - Some concerning patterns detected",
         "🎭 Keep conversations light and public",
         "🚫 Avoid sharing personal details",
         "👀 Watch for escalating behavior"]
      | .low =>
        ["✅ Conversation appears relatively safe, but stay alert"]
    let flag_categories := flags.map (fun f => f.category)
    recommendations ++
      (if flag_categories.any (fun c => strIn "financial" c) then
        ["💰 NEVER send money to someone you haven't met in person"] else []) ++
      (if flag_categories.any (fun c => strIn "manipulation" c) then
        ["🧠 Trust your instincts - manipulation tactics are red flags"] else []) ++
      (if flag_categories.any (fun c => strIn "personal_info" c) then
        ["🔐 Keep personal information private until you've met safely"] else []) ++
      (if flag_categories.any (fun c => strIn "sexual" c) then
        ["🚫 You're not obligated to send photos or engage sexually"] else [])

/-- The `risk_priority` dict of `analyze_message`, in insertion order. -/
def risk_priority : List (RiskLevel × Nat) :=
  [(.low, 1), (.medium, 2), (.high, 3), (.critical, 4)]

/-- `risk_priority[level]` as a function. -/
def priorityOf : RiskLevel → Nat
  | .low => 1
  | .medium => 2
  | .high => 3
  | .critical => 4

/-- The `for level, priority in risk_priority.items(): if priority ==
highest_priority: ...; break` loop (`low` stands for the initial value of
`results["risk_level"]`, kept when nothing matches). -/
def priorityToLevel (p : Nat) : RiskLevel :=
  match risk_priority.find? (fun lp => lp.2 == p) with
  | some lp => lp.1
  | none => .low

/-- `max(risk_priority[flag.risk_level] for flag in flags)`: only applied
to nonempty lists, whose priorities are all at least 1, so folding from 0
is the same maximum. -/
def highestPriority (flags : List RedFlag) : Nat :=
  (flags.map (fun f => priorityOf f.risk_level)).foldl Nat.max 0

/-- `message[:100] + "..." if len(message) > 100 else message`. -/
def truncate (message : String) : String :=
  if message.length > 100 then message.take 100 ++ "..." else message

/-- The candidate flags accumulated by `analyze_message` before filtering:
pattern flags, then advanced financial flags, then (with sender context)
context flags — `results["red_flags"].extend(...)` three times.  The
pattern stages receive `message.lower()`. -/
def allCandidateFlags (msg : String) (sender_info : Option SenderInfo) : List RedFlag :=
  detect_patterns (pyLower msg) ++
    analyze_advanced_financial_patterns (pyLower msg) ++
    (match sender_info with
     | some si => analyze_context msg si
     | none => [])

/-- The `if results["red_flags"]:` aggregation of `analyze_message`: the
highest-priority risk level mapped back through `risk_priority`, or the
initial `LOW` when no flag survived. -/
def aggregateRisk (red_flags : List RedFlag) : RiskLevel :=
  if red_flags.isEmpty then .low
  else priorityToLevel (highestPriority red_flags)

/-- `sum(flag.confidence ...) / len(...)` of `analyze_message`, or the
initial 0.0 when no flag survived. -/
def aggregateConfidence (red_flags : List RedFlag) : ℚ :=
  if red_flags.isEmpty then 0
  else (red_flags.map (fun f => f.confidence)).sum / (red_flags.length : ℚ)

/-- The dict returned by `analyze_message`. -/
structure AnalysisResult where
  message_analyzed : String
  risk_level : RiskLevel
  red_flags : List RedFlag
  confidence : ℚ
  recommendations : List String
deriving DecidableEq, Repr

/-- Which guarded regions of the source raise during one call.
`filterRaises`/`recsRaises` select the local `except` branches of
`_filter_false_positives` / `_generate_recommendations`; `outerRaises`
stands for an exception reaching `analyze_message`'s own `except`. -/
structure FailureModel where
  filterRaises : Bool
  recsRaises : Bool
  outerRaises : Bool
deriving DecidableEq, Repr

/-- The run with no exception anywhere. -/
def noFailure : FailureModel := ⟨false, false, false⟩

/-- `analyze_message(message, sender_info)`.  A non-string message is
`none`; `if not message or not isinstance(message, str)` is the first
branch.  The `fm.outerRaises` branch is the source's own `except` branch:
it overwrites the four result fields computed in the `try` block (so the
run's answer does not depend on how far the `try` body got) and keeps the
`message_analyzed` set before the `try`. -/
def analyze_message (fm : FailureModel) (message : Option String)
    (sender_info : Option SenderInfo) : AnalysisResult :=
  match message with
  | none =>
      { message_analyzed := "", risk_level := .low, red_flags := [],
        confidence := 0, recommendations := [] }
  | some msg =>
    if msg = "" then
      { message_analyzed := "", risk_level := .low, red_flags := [],
        confidence := 0, recommendations := [] }
    else if fm.outerRaises then
      { message_analyzed := truncate msg, risk_level := .low, red_flags := [],
        confidence := 0,
        recommendations := ["Analysis error occurred - exercise caution"] }
    else
      let red_flags :=
        filter_false_positives fm.filterRaises msg (allCandidateFlags msg sender_info)
      { message_analyzed := truncate msg
        risk_level := aggregateRisk red_flags
        red_flags := red_flags
        confidence := aggregateConfidence red_flags
        recommendations :=
          generate_recommendations fm.recsRaises (aggregateRisk red_flags) red_flags }

/-! ### Lemmas about the Matcher -/

/-- The `(category, subcategory) → data` pairs of the catalog, flattened
in iteration order. -/
def catalogTriples : List (String × String × SubPattern) := [
  ("manipulation", "love_bombing", love_bombing),
  ("manipulation", "guilt_tripping", guilt_tripping),
  ("manipulation", "gaslighting", gaslighting),
  ("boundary_violations", "persistent_messaging", persistent_messaging),
  ("boundary_violations", "sexual_content", sexual_content),
  ("financial_scams", "money_requests", money_requests),
  ("financial_scams", "sophisticated_scams", sophisticated_scams),
  ("controlling_behavior", "personal_info", personal_info),
  ("controlling_behavior", "isolation", isolation),
  ("pressure_tactics", "urgency", urgency),
  ("aggressive_language", "threats", threats)]

/-- The `f"{category}_{subcategory}"` identifier of a catalog pair. -/
def tripleName (t : String × String × SubPattern) : String := t.1 ++ "_" ++ t.2.1

lemma detect_eq_flat (msg : String) :
    detect_patterns msg =
      catalogTriples.flatMap (fun t => detectSub msg t.1 t.2.1 t.2.2) := by
  simp [detect_patterns, patterns, catalogTriples]

lemma detectSub_eq (msg c s : String) (d : SubPattern) :
    detectSub msg c s d =
      ((firstMatch msg d.patterns).map (fun r =>
        { category := c ++ "_" ++ s, pattern := r.src, risk_level := d.risk_level,
          explanation := d.explanation, confidence := 0.8 : RedFlag })).toList := by
  unfold detectSub
  cases firstMatch msg d.patterns <;> rfl

lemma detectSub_mem {msg c s : String} {d : SubPattern} {f : RedFlag}
    (h : f ∈ detectSub msg c s d) :
    f.category = c ++ "_" ++ s ∧ f.risk_level = d.risk_level ∧
      f.explanation = d.explanation ∧ f.confidence = 0.8 := by
  rw [detectSub_eq] at h
  cases hm : firstMatch msg d.patterns with
  | none => rw [hm] at h; cases h
  | some r =>
      rw [hm] at h
      simp at h
      subst h
      exact ⟨rfl, rfl, rfl, rfl⟩

lemma detect_mem {msg : String} {f : RedFlag} (h : f ∈ detect_patterns msg) :
    ∃ t ∈ catalogTriples, f.category = tripleName t ∧
      f.risk_level = t.2.2.risk_level ∧ f.confidence = 0.8 := by
  rw [detect_eq_flat, List.mem_flatMap] at h
  obtain ⟨t, ht, hf⟩ := h
  obtain ⟨h1, h2, _, h4⟩ := detectSub_mem hf
  exact ⟨t, ht, h1, h2, h4⟩

lemma filter_flatMap_detectSub (msg : String) :
    ∀ L : List (String × String × SubPattern),
      (L.map tripleName).Nodup →
      ∀ t ∈ L,
        (L.flatMap (fun u => detectSub msg u.1 u.2.1 u.2.2)).filter
            (fun f => f.category == tripleName t) =
          detectSub msg t.1 t.2.1 t.2.2 := by
  intro L
  induction L with
  | nil => intro _ t ht; cases ht
  | cons u L ih =>
    intro hnd t ht
    rw [List.map_cons, List.nodup_cons] at hnd
    rw [List.flatMap_cons, List.filter_append]
    cases ht with
    | head =>
      have h1 : (detectSub msg u.1 u.2.1 u.2.2).filter
          (fun f => f.category == tripleName u) = detectSub msg u.1 u.2.1 u.2.2 := by
        rw [List.filter_eq_self]
        intro f hf
        have hc := (detectSub_mem hf).1
        show (f.category == tripleName u) = true
        rw [beq_iff_eq, hc]
        rfl
      have h2 : (L.flatMap (fun v => detectSub msg v.1 v.2.1 v.2.2)).filter
          (fun f => f.category == tripleName u) = [] := by
        rw [List.filter_eq_nil_iff]
        intro f hf hb
        rw [List.mem_flatMap] at hf
        obtain ⟨v, hv, hfv⟩ := hf
        have hc := (detectSub_mem hfv).1
        rw [beq_iff_eq, hc] at hb
        have hb2 : tripleName v = tripleName u := hb
        exact hnd.1 (by rw [← hb2]; exact List.mem_map_of_mem tripleName hv)
      rw [h1, h2, List.append_nil]
    | tail _ htl =>
      have h1 : (detectSub msg u.1 u.2.1 u.2.2).filter
          (fun f => f.category == tripleName t) = [] := by
        rw [List.filter_eq_nil_iff]
        intro f hf hb
        have hc := (detectSub_mem hf).1
        rw [beq_iff_eq, hc] at hb
        have hb2 : tripleName u = tripleName t := hb
        exact hnd.1 (by rw [hb2]; exact List.mem_map_of_mem tripleName htl)
      rw [h1, ih hnd.2 t htl, List.nil_append]

/-! ### Lemmas about the other stages -/

lemma advanced_mem {msg : String} {f : RedFlag}
    (h : f ∈ analyze_advanced_financial_patterns msg) :
    f.category ∈ ["financial_scam_stranded", "financial_scam_promise",
        "financial_scam_manipulation"] ∧
      (f.confidence = 0.9 ∨ f.confidence = 0.95) ∧ f.risk_level = .critical := by
  simp only [analyze_advanced_financial_patterns, List.mem_append] at h
  rcases h with (h | h) | h
  · split at h
    · simp only [List.mem_singleton] at h
      subst h
      refine ⟨by simp, ?_, rfl⟩
      split
      · exact Or.inr rfl
      · exact Or.inl rfl
    · cases h
  · split at h
    · simp only [List.mem_singleton] at h
      subst h
      exact ⟨by simp, Or.inl rfl, rfl⟩
    · cases h
  · split at h
    · simp only [List.mem_singleton] at h
      subst h
      exact ⟨by simp, Or.inr rfl, rfl⟩
    · cases h

lemma context_mem {msg : String} {si : SenderInfo} {f : RedFlag}
    (h : f ∈ analyze_context msg si) :
    f.category ∈ ["boundary_violation_spam", "suspicious_account"] ∧
      (f.confidence = 0.7 ∨ f.confidence = 0.6) ∧ f.risk_level = .medium := by
  simp only [analyze_context, List.mem_append] at h
  rcases h with h | h
  · split at h
    · simp only [List.mem_singleton] at h
      subst h
      exact ⟨by simp, Or.inl rfl, rfl⟩
    · cases h
  · split at h
    · simp only [List.mem_singleton] at h
      subst h
      exact ⟨by simp, Or.inr rfl, rfl⟩
    · cases h

/-- Every flag placed in `results["red_flags"]` by a no-failure run (any
sender context) has one of the sixteen fixed category strings and a
confidence among the five constants of the source, all inside `[0, 1]`. -/
lemma candidate_conf_bounds {msg : String} {ctx : Option SenderInfo} {f : RedFlag}
    (h : f ∈ allCandidateFlags msg ctx) :
    0 ≤ f.confidence ∧ f.confidence ≤ 1 := by
  simp only [allCandidateFlags, List.mem_append] at h
  rcases h with (h | h) | h
  · obtain ⟨t, _, _, _, hc⟩ := detect_mem h
    rw [hc]
    constructor <;> norm_num
  · obtain ⟨_, hc, _⟩ := advanced_mem h
    rcases hc with hc | hc <;> rw [hc] <;> constructor <;> norm_num
  · cases ctx with
    | none => cases h
    | some si =>
        obtain ⟨_, hc, _⟩ := context_mem h
        rcases hc with hc | hc <;> rw [hc] <;> constructor <;> norm_num

lemma filter_fp_subset {raises : Bool} {msg : String} {flags : List RedFlag}
    {f : RedFlag} (h : f ∈ filter_false_positives raises msg flags) : f ∈ flags := by
  unfold filter_false_positives at h
  split at h
  · exact h
  · exact (List.mem_filter.mp h).1

/-! ### Lemmas about the aggregation -/

lemma foldl_max_init (l : List Nat) : ∀ a : Nat, a ≤ l.foldl Nat.max a := by
  induction l with
  | nil => intro a; exact Nat.le_refl a
  | cons b l ih =>
    intro a
    exact Nat.le_trans (Nat.le_max_left a b) (ih (Nat.max a b))

lemma le_foldl_max (l : List Nat) : ∀ a : Nat, ∀ x ∈ l, x ≤ l.foldl Nat.max a := by
  induction l with
  | nil => intro a x hx; cases hx
  | cons b l ih =>
    intro a x hx
    cases hx with
    | head => exact Nat.le_trans (Nat.le_max_right a b) (foldl_max_init l (Nat.max a b))
    | tail _ hxl => exact ih (Nat.max a b) x hxl

lemma foldl_max_cases (l : List Nat) :
    ∀ a : Nat, l.foldl Nat.max a = a ∨ l.foldl Nat.max a ∈ l := by
  induction l with
  | nil => intro a; exact Or.inl rfl
  | cons b l ih =>
    intro a
    rw [List.foldl_cons]
    rcases ih (Nat.max a b) with h | h
    · rw [h]
      rcases Nat.le_total a b with h1 | h1
      · have h2 : Nat.max a b = b := Nat.max_eq_right h1
        exact Or.inr (by rw [h2]; exact List.mem_cons_self b l)
      · have h2 : Nat.max a b = a := Nat.max_eq_left h1
        exact Or.inl h2
    · exact Or.inr (List.mem_cons_of_mem b h)

lemma priorityOf_pos (lv : RiskLevel) : 1 ≤ priorityOf lv := by
  cases lv <;> decide

lemma priorityToLevel_priorityOf (lv : RiskLevel) :
    priorityToLevel (priorityOf lv) = lv := by
  cases lv <;> rfl

/-- The priority round trip of the source computes the maximum severity:
the aggregated level bounds every surviving flag's level and is attained
by one of them. -/
lemma aggregateRisk_spec (flags : List RedFlag) (hne : flags ≠ []) :
    (∀ f ∈ flags, priorityOf f.risk_level ≤ priorityOf (aggregateRisk flags)) ∧
      ∃ g ∈ flags, g.risk_level = aggregateRisk flags := by
  have hE : flags.isEmpty = false := by
    cases flags with
    | nil => exact absurd rfl hne
    | cons a l => rfl
  have hval : aggregateRisk flags = priorityToLevel (highestPriority flags) := by
    unfold aggregateRisk
    rw [hE]
    rfl
  rcases foldl_max_cases (flags.map (fun f => priorityOf f.risk_level)) 0 with h0 | hmem
  · obtain ⟨f0, hf0⟩ := List.exists_mem_of_ne_nil flags hne
    have h1 : priorityOf f0.risk_level ≤ highestPriority flags :=
      le_foldl_max _ 0 _ (List.mem_map_of_mem _ hf0)
    have h0' : highestPriority flags = 0 := h0
    rw [h0'] at h1
    exact absurd (Nat.le_trans (priorityOf_pos f0.risk_level) h1) (by decide)
  · obtain ⟨g, hg, hgp⟩ := List.mem_map.mp hmem
    have hgp' : priorityOf g.risk_level = highestPriority flags := hgp
    have hlev : aggregateRisk flags = g.risk_level := by
      rw [hval, ← hgp', priorityToLevel_priorityOf]
    constructor
    · intro f hf
      rw [hlev, hgp']
      exact le_foldl_max _ 0 _ (List.mem_map_of_mem _ hf)
    · exact ⟨g, hg, hlev.symm⟩

lemma aggregateRisk_nil : aggregateRisk [] = RiskLevel.low := rfl

lemma aggregateConfidence_eq (flags : List RedFlag) :
    aggregateConfidence flags =
      if flags = [] then 0
      else (flags.map (fun f => f.confidence)).sum / (flags.length : ℚ) := by
  cases flags with
  | nil => rfl
  | cons a l => simp [aggregateConfidence]

/-- A flag the per-flag loop judged a false positive is not appended. -/
lemma fp_not_mem_filter {msg : String} {flags : List RedFlag} {f : RedFlag}
    (hfp : is_false_positive (pyLower msg) f = true) :
    f ∉ filter_false_positives false msg flags := by
  intro hmem
  simp only [filter_false_positives, Bool.false_eq_true, if_false] at hmem
  have h2 := (List.mem_filter.mp hmem).2
  rw [hfp] at h2
  cases h2

/-! ### Whitespace-only messages -/

lemma pyIsSpace_not_word {c : Char} (h : pyIsSpace c = true) : isWordChar c = false := by
  simp only [pyIsSpace, Bool.or_eq_true, beq_iff_eq] at h
  rcases h with ((((h | h) | h) | h) | h) | h <;> subst h <;> decide

lemma pyIsSpace_toLower {c : Char} (h : pyIsSpace c = true) : c.toLower = c := by
  simp only [pyIsSpace, Bool.or_eq_true, beq_iff_eq] at h
  rcases h with ((((h | h) | h) | h) | h) | h <;> subst h <;> decide

lemma boundaryAt_false {prev : Option Char} {s : List Char}
    (hp : optIsWord prev = false) (hs : ∀ c ∈ s, isWordChar c = false) :
    boundaryAt prev s = false := by
  unfold boundaryAt
  rw [hp]
  have h2 : headIsWord s = false := by
    cases s with
    | nil => rfl
    | cons c cs => exact hs c (List.mem_cons_self c cs)
  rw [h2]
  rfl

/-- A pattern that begins with `\b` matches nowhere in a subject without
word characters: the boundary fails at every start position. -/
lemma searchAux_seq_wordB (r : Rx) (s : List Char) :
    ∀ prev : Option Char, (∀ c ∈ s, isWordChar c = false) → optIsWord prev = false →
      searchAux (.seq .wordB r) prev s = false := by
  induction s with
  | nil =>
    intro prev hs hp
    have hb : boundaryAt prev [] = false := boundaryAt_false hp hs
    show (matchAt (.seq .wordB r) prev [] (fun _ _ => true) || false) = false
    have hm : matchAt (.seq .wordB r) prev [] (fun _ _ => true) = false := by
      show (boundaryAt prev [] && matchAt r prev [] (fun _ _ => true)) = false
      rw [hb]
      rfl
    rw [hm]
    rfl
  | cons c cs ih =>
    intro prev hs hp
    have hcw : isWordChar c = false := hs c (List.mem_cons_self c cs)
    have hb : boundaryAt prev (c :: cs) = false := boundaryAt_false hp hs
    show (matchAt (.seq .wordB r) prev (c :: cs) (fun _ _ => true) ||
        searchAux (.seq .wordB r) (some c) cs) = false
    have hm : matchAt (.seq .wordB r) prev (c :: cs) (fun _ _ => true) = false := by
      show (boundaryAt prev (c :: cs) &&
          matchAt r prev (c :: cs) (fun _ _ => true)) = false
      rw [hb]
      rfl
    rw [hm, ih (some c) (fun d hd => hs d (List.mem_cons_of_mem c hd)) hcw]
    rfl

lemma rxSearch_wordB_false {rx : Rx} (h : startsWithWordB rx = true) {s : String}
    (hs : ∀ c ∈ s.data, isWordChar c = false) : rxSearch rx s = false := by
  cases rx
  case seq a b =>
    cases a
    case wordB => exact searchAux_seq_wordB b s.data none hs rfl
    all_goals simp [startsWithWordB] at h
  all_goals simp [startsWithWordB] at h

lemma pyLower_allSpace {s : String} (hs : ∀ c ∈ s.data, pyIsSpace c = true) :
    ∀ c ∈ (pyLower s).data, pyIsSpace c = true := by
  intro c hc
  have hc2 : c ∈ s.data.map Char.toLower := hc
  rw [List.mem_map] at hc2
  obtain ⟨d, hd, hdc⟩ := hc2
  rw [← hdc, pyIsSpace_toLower (hs d hd)]
  exact hs d hd

/-- Every rule of the catalog starts with the zero-width `\b`. -/
lemma catalog_rules_wordB :
    ∀ t ∈ catalogTriples, ∀ r ∈ t.2.2.patterns, startsWithWordB r.rx = true := by
  decide

lemma firstMatch_allSpace {rules : List Rule}
    (hr : ∀ r ∈ rules, startsWithWordB r.rx = true) {msg : String}
    (hs : ∀ c ∈ msg.data, pyIsSpace c = true) :
    firstMatch msg rules = none := by
  induction rules with
  | nil => rfl
  | cons r rs ih =>
    have hlow : ∀ c ∈ (pyLower msg).data, isWordChar c = false := fun c hc =>
      pyIsSpace_not_word (pyLower_allSpace hs c hc)
    have hsr : rxSearchCI r.rx msg = false :=
      rxSearch_wordB_false (hr r (List.mem_cons_self r rs)) hlow
    simp only [firstMatch, hsr, Bool.false_eq_true, if_false]
    exact ih (fun x hx => hr x (List.mem_cons_of_mem r hx))

lemma detect_allSpace {msg : String} (hs : ∀ c ∈ msg.data, pyIsSpace c = true) :
    detect_patterns msg = [] := by
  rw [detect_eq_flat, List.flatMap_eq_nil_iff]
  intro t ht
  unfold detectSub
  rw [firstMatch_allSpace (catalog_rules_wordB t ht) hs]

lemma needlePrefixAt_mem {n : List Char} :
    ∀ {h : List Char}, needlePrefixAt n h = true → ∀ c ∈ n, c ∈ h := by
  induction n with
  | nil => intro h _ c hc; cases hc
  | cons a n ih =>
    intro h hp c hc
    cases h with
    | nil => exact absurd hp (by simp [needlePrefixAt])
    | cons b t =>
      simp only [needlePrefixAt, Bool.and_eq_true, beq_iff_eq] at hp
      cases hc with
      | head => rw [hp.1]; exact List.mem_cons_self b t
      | tail _ hcn => exact List.mem_cons_of_mem b (ih hp.2 c hcn)

lemma containsSub_mem {n : List Char} :
    ∀ h : List Char, containsSub n h = true → ∀ c ∈ n, c ∈ h := by
  intro h
  induction h with
  | nil =>
    intro hc c hcn
    exact needlePrefixAt_mem hc c hcn
  | cons b t ih =>
    intro hc c hcn
    have hc2 : (needlePrefixAt n (b :: t) || containsSub n t) = true := hc
    rcases Bool.or_eq_true_iff.mp hc2 with h1 | h1
    · exact needlePrefixAt_mem h1 c hcn
    · exact List.mem_cons_of_mem b (ih h1 c hcn)

lemma strIn_allSpace {needle hay : String}
    (hn : ∃ c ∈ needle.data, pyIsSpace c = false)
    (hs : ∀ c ∈ hay.data, pyIsSpace c = true) : strIn needle hay = false := by
  cases hb : strIn needle hay with
  | false => rfl
  | true =>
    obtain ⟨c, hc, hcs⟩ := hn
    have h1 := hs c (containsSub_mem hay.data hb c hc)
    rw [h1] at hcs
    cases hcs

lemma any_strIn_allSpace {l : List String} {hay : String}
    (hl : ∀ n ∈ l, ∃ c ∈ n.data, pyIsSpace c = false)
    (hs : ∀ c ∈ hay.data, pyIsSpace c = true) :
    l.any (fun n => strIn n hay) = false := by
  rw [List.any_eq_false]
  intro n hn hcontra
  rw [strIn_allSpace (hl n hn) hs] at hcontra
  cases hcontra

lemma advanced_allSpace {msg : String} (hs : ∀ c ∈ msg.data, pyIsSpace c = true) :
    analyze_advanced_financial_patterns msg = [] := by
  have hsl := pyLower_allSpace hs
  have hstranded : stranded_indicators.any (fun i => strIn i (pyLower msg)) = false :=
    any_strIn_allSpace (by decide) hsl
  have hmoney : money_indicators.any (fun i => strIn i (pyLower msg)) = false :=
    any_strIn_allSpace (by decide) hsl
  simp [analyze_advanced_financial_patterns, hstranded, hmoney]

/-! ### Unfolding lemmas for `analyze_message` -/

lemma analyze_message_outer {fm : FailureModel} {msg : String} (hne : msg ≠ "")
    (houter : fm.outerRaises = true) (ctx : Option SenderInfo) :
    analyze_message fm (some msg) ctx =
      { message_analyzed := truncate msg, risk_level := .low, red_flags := [],
        confidence := 0,
        recommendations := ["Analysis error occurred - exercise caution"] } := by
  simp only [analyze_message, if_neg hne, houter, if_true]

lemma analyze_message_normal {fm : FailureModel} {msg : String} (hne : msg ≠ "")
    (houter : fm.outerRaises = false) (ctx : Option SenderInfo) :
    analyze_message fm (some msg) ctx =
      { message_analyzed := truncate msg
        risk_level := aggregateRisk (filter_false_positives fm.filterRaises msg
          (allCandidateFlags msg ctx))
        red_flags := filter_false_positives fm.filterRaises msg (allCandidateFlags msg ctx)
        confidence := aggregateConfidence (filter_false_positives fm.filterRaises msg
          (allCandidateFlags msg ctx))
        recommendations := generate_recommendations fm.recsRaises
          (aggregateRisk (filter_false_positives fm.filterRaises msg
            (allCandidateFlags msg ctx)))
          (filter_false_positives fm.filterRaises msg (allCandidateFlags msg ctx)) } := by
  simp only [analyze_message, if_neg hne, houter, Bool.false_eq_true, if_false]

lemma generate_recommendations_ne_nil (raises : Bool) (rl : RiskLevel)
    (flags : List RedFlag) : generate_recommendations raises rl flags ≠ [] := by
  cases raises
  · cases rl <;> simp [generate_recommendations]
  · simp [generate_recommendations]

/-! ### The claims -/

/-- C3: for every input and failure pattern, the `risk_level` field of the
value `analyze_message` returns is (in wire-string form, through
`RiskLevel.value`) one of the four strings "low", "medium", "high",
"critical". -/
theorem claim_C3 (fm : FailureModel) (message : Option String)
    (ctx : Option SenderInfo) :
    (analyze_message fm message ctx).risk_level.value ∈
      ["low", "medium", "high", "critical"] := by
  cases (analyze_message fm message ctx).risk_level <;> simp [RiskLevel.value]

/-- C7: the False-Positive Filter fails open — when its guarded region
raises, `_filter_false_positives` returns the original candidate list
unchanged for every message and candidate list. -/
theorem claim_C7 (message : String) (flags : List RedFlag) :
    filter_false_positives true message flags = flags := rfl

/-- C2: `analyze_message` is total over all modelled inputs (any string,
the empty string, a non-string `none`) — it is a Lean function — and when
the `try` body raises (`fm.outerRaises`), the result carries the safe
default: LOW tier, no findings, zero confidence, and (for a non-empty
string message, the only case in which the `try` body runs) exactly the
one generic caution recommendation. -/
theorem claim_C2 (fm : FailureModel) (message : Option String)
    (ctx : Option SenderInfo) (h : fm.outerRaises = true) :
    (analyze_message fm message ctx).risk_level = .low ∧
    (analyze_message fm message ctx).red_flags = [] ∧
    (analyze_message fm message ctx).confidence = 0 ∧
    ∀ s : String, message = some s → s ≠ "" →
      (analyze_message fm message ctx).recommendations =
        ["Analysis error occurred - exercise caution"] := by
  cases message with
  | none => exact ⟨rfl, rfl, rfl, fun s hs => by cases hs⟩
  | some msg =>
    by_cases he : msg = ""
    · subst he
      refine ⟨by simp [analyze_message], by simp [analyze_message],
        by simp [analyze_message], ?_⟩
      intro s hs hne
      injection hs with hs2
      exact absurd hs2.symm hne
    · rw [analyze_message_outer he h ctx]
      exact ⟨rfl, rfl, rfl, fun s _ _ => rfl⟩

/-- C2 witness: the theorem applied to a failing run on a concrete
non-empty message. -/
theorem claim_C2_witness :
    (analyze_message ⟨false, false, true⟩ (some "hello there") none).risk_level =
        .low ∧
      (analyze_message ⟨false, false, true⟩ (some "hello there") none).red_flags = [] ∧
      (analyze_message ⟨false, false, true⟩ (some "hello there") none).confidence = 0 ∧
      ∀ s : String, (some "hello there" : Option String) = some s → s ≠ "" →
        (analyze_message ⟨false, false, true⟩ (some "hello there") none).recommendations =
          ["Analysis error occurred - exercise caution"] :=
  claim_C2 ⟨false, false, true⟩ (some "hello there") none rfl

/-- C10: at the public boundary, the empty string and a non-string input
produce an empty recommendations list, while every non-empty string input
produces a non-empty one (at least the LOW-tier base recommendation, or a
generic caution on failure), for every sender context and failure pattern. -/
theorem claim_C10 (fm : FailureModel) (ctx : Option SenderInfo) :
    (analyze_message fm none ctx).recommendations = [] ∧
    (analyze_message fm (some "") ctx).recommendations = [] ∧
    ∀ s : String, s ≠ "" → (analyze_message fm (some s) ctx).recommendations ≠ [] := by
  refine ⟨rfl, by simp [analyze_message], ?_⟩
  intro s hne
  cases houter : fm.outerRaises
  · rw [analyze_message_normal hne houter ctx]
    exact generate_recommendations_ne_nil _ _ _
  · rw [analyze_message_outer hne houter ctx]
    simp

/-- C10 witness: concrete instances of all three clauses. -/
theorem claim_C10_witness :
    (analyze_message noFailure none none).recommendations = [] ∧
      (analyze_message noFailure (some "") none).recommendations = [] ∧
      (analyze_message noFailure (some "hi") none).recommendations ≠ [] :=
  ⟨(claim_C10 noFailure none).1, (claim_C10 noFailure none).2.1,
    (claim_C10 noFailure none).2.2 "hi" (by decide)⟩

/-- C4: for the empty string, every whitespace-only string (no sender
context supplied, as in the spec's default call) and every non-string
input, `analyze_message` returns LOW risk, an empty finding list and
confidence 0.0 — under every failure pattern. -/
theorem claim_C4 (fm : FailureModel) (s : String)
    (hs : ∀ c ∈ s.data, pyIsSpace c = true) :
    ((analyze_message fm (some s) none).risk_level = .low ∧
     (analyze_message fm (some s) none).red_flags = [] ∧
     (analyze_message fm (some s) none).confidence = 0) ∧
    ∀ ctx : Option SenderInfo,
      (analyze_message fm none ctx).risk_level = .low ∧
      (analyze_message fm none ctx).red_flags = [] ∧
      (analyze_message fm none ctx).confidence = 0 := by
  refine ⟨?_, fun ctx => ⟨rfl, rfl, rfl⟩⟩
  by_cases he : s = ""
  · subst he
    exact ⟨by simp [analyze_message], by simp [analyze_message],
      by simp [analyze_message]⟩
  · cases houter : fm.outerRaises
    · have hflags : allCandidateFlags s none = [] := by
        unfold allCandidateFlags
        rw [detect_allSpace (pyLower_allSpace hs),
          advanced_allSpace (pyLower_allSpace hs)]
        rfl
      have hfilter :
          filter_false_positives fm.filterRaises s (allCandidateFlags s none) = [] := by
        rw [hflags]
        cases fm.filterRaises <;> rfl
      rw [analyze_message_normal he houter none]
      refine ⟨?_, hfilter, ?_⟩
      · show aggregateRisk
          (filter_false_positives fm.filterRaises s (allCandidateFlags s none)) = .low
        rw [hfilter]
        rfl
      · show aggregateConfidence
          (filter_false_positives fm.filterRaises s (allCandidateFlags s none)) = 0
        rw [hfilter]
        rfl
    · rw [analyze_message_outer he houter none]
      exact ⟨rfl, rfl, rfl⟩

/-- C4 witness: a concrete three-space message with no failures. -/
theorem claim_C4_witness :
    (analyze_message noFailure (some "   ") none).risk_level = .low ∧
      (analyze_message noFailure (some "   ") none).red_flags = [] ∧
      (analyze_message noFailure (some "   ") none).confidence = 0 :=
  (claim_C4 noFailure "   " (by decide)).1

lemma result_invariant (flags : List RedFlag) :
    (∀ f ∈ flags, priorityOf f.risk_level ≤ priorityOf (aggregateRisk flags)) ∧
    (flags ≠ [] → ∃ g ∈ flags, g.risk_level = aggregateRisk flags) ∧
    (flags = [] → aggregateRisk flags = .low) ∧
    aggregateConfidence flags =
      (if flags = [] then 0
       else (flags.map (fun f => f.confidence)).sum / (flags.length : ℚ)) := by
  by_cases hne : flags = []
  · subst hne
    exact ⟨fun f hf => absurd hf (by simp), fun h => absurd rfl h, fun _ => rfl, rfl⟩
  · obtain ⟨hbound, hex⟩ := aggregateRisk_spec flags hne
    exact ⟨hbound, fun _ => hex, fun h => absurd h hne,
      by rw [aggregateConfidence_eq]⟩

/-- C1: for every input, sender context and failure pattern, the result of
`analyze_message` satisfies the aggregation invariant — every returned
finding's confidence lies in [0,1]; the result's risk level is the maximum
severity of the surviving findings under LOW < MEDIUM < HIGH < CRITICAL
(expressed through the source's own priority map: it bounds every
surviving finding's priority and is attained by one of them), or LOW when
none survive; and the result's confidence is the arithmetic mean of the
surviving findings' confidences, or 0.0 when none survive. -/
theorem claim_C1 (fm : FailureModel) (message : Option String)
    (ctx : Option SenderInfo) :
    (∀ f ∈ (analyze_message fm message ctx).red_flags,
        0 ≤ f.confidence ∧ f.confidence ≤ 1) ∧
    (∀ f ∈ (analyze_message fm message ctx).red_flags,
        priorityOf f.risk_level ≤
          priorityOf (analyze_message fm message ctx).risk_level) ∧
    ((analyze_message fm message ctx).red_flags ≠ [] →
      ∃ g ∈ (analyze_message fm message ctx).red_flags,
        g.risk_level = (analyze_message fm message ctx).risk_level) ∧
    ((analyze_message fm message ctx).red_flags = [] →
      (analyze_message fm message ctx).risk_level = .low) ∧
    (analyze_message fm message ctx).confidence =
      (if (analyze_message fm message ctx).red_flags = [] then 0
       else ((analyze_message fm message ctx).red_flags.map
           (fun f => f.confidence)).sum /
         ((analyze_message fm message ctx).red_flags.length : ℚ)) := by
  cases message with
  | none =>
      exact ⟨fun f hf => absurd hf (by simp [analyze_message]),
        fun f hf => absurd hf (by simp [analyze_message]),
        fun h => absurd (by simp [analyze_message]) h, fun _ => rfl, by simp [analyze_message]⟩
  | some msg =>
    by_cases he : msg = ""
    · subst he
      exact ⟨fun f hf => absurd hf (by simp [analyze_message]),
        fun f hf => absurd hf (by simp [analyze_message]),
        fun h => absurd (by simp [analyze_message]) h,
        fun _ => by simp [analyze_message], by simp [analyze_message]⟩
    · cases houter : fm.outerRaises
      · rw [analyze_message_normal he houter ctx]
        obtain ⟨h2, h3, h4, h5⟩ := result_invariant
          (filter_false_positives fm.filterRaises msg (allCandidateFlags msg ctx))
        exact ⟨fun f hf => candidate_conf_bounds (filter_fp_subset hf),
          h2, h3, h4, h5⟩
      · rw [analyze_message_outer he houter ctx]
        exact ⟨fun f hf => absurd hf (by simp), fun f hf => absurd hf (by simp),
          fun h => absurd rfl h, fun _ => rfl, rfl⟩

/-- C1 witness: the invariant instantiated at a concrete message that
produces surviving findings. -/
theorem claim_C1_witness :
    (analyze_message noFailure (some "i need money now") none).confidence =
      (if (analyze_message noFailure (some "i need money now") none).red_flags = []
       then 0
       else ((analyze_message noFailure (some "i need money now") none).red_flags.map
           (fun f => f.confidence)).sum /
         ((analyze_message noFailure (some "i need money now") none).red_flags.length :
           ℚ)) :=
  (claim_C1 noFailure (some "i need money now") none).2.2.2.2

/-- C5: for every message and every (category, subcategory) pair of the
catalog, the Matcher's findings carrying that pair's identifier are
exactly: one finding for the first rule of the subcategory that matches
(case-insensitively, confidence 0.8, the subcategory's severity and
explanation) when some rule matches, and none otherwise — so at most one
finding per subcategory. -/
theorem claim_C5 (msg cat sub : String) (d : SubPattern)
    (h : (cat, sub, d) ∈ catalogTriples) :
    (detect_patterns msg).filter (fun f => f.category == cat ++ "_" ++ sub) =
      ((firstMatch msg d.patterns).map (fun r =>
        { category := cat ++ "_" ++ sub, pattern := r.src,
          risk_level := d.risk_level, explanation := d.explanation,
          confidence := 0.8 : RedFlag })).toList := by
  rw [detect_eq_flat]
  have h1 := filter_flatMap_detectSub msg catalogTriples (by decide) (cat, sub, d) h
  have h2 : (catalogTriples.flatMap
        (fun u => detectSub msg u.1 u.2.1 u.2.2)).filter
      (fun f => f.category == cat ++ "_" ++ sub) = detectSub msg cat sub d := h1
  rw [h2]
  exact detectSub_eq msg cat sub d

/-- C5 witness: the love-bombing subcategory on a concrete message; the
second rule also mentions "soulmate"-free alternatives but only the first
matching rule fires, with confidence 0.8. -/
theorem claim_C5_witness :
    (detect_patterns "you are my soulmate").filter
        (fun f => f.category == "manipulation" ++ "_" ++ "love_bombing") =
      [{ category := "manipulation_love_bombing",
         pattern := "\\b(you['\\s]re\\s+perfect|soulmate|meant\\s+to\\s+be)\\b",
         risk_level := .high,
         explanation := "Love bombing - Excessive romantic declarations too early in conversation",
         confidence := 0.8 }] :=
  (claim_C5 "you are my soulmate" "manipulation" "love_bombing" love_bombing
    (by unfold catalogTriples; exact List.mem_cons_self _ _)).trans
    (by with_unfolding_all decide)

/-- C6: every message containing a stranded-vocabulary term and a
money-related term makes the compound financial-scam heuristic emit the
CRITICAL stranded-story finding, with confidence 0.95 when a
repayment-promise phrase also occurs and 0.9 otherwise. -/
theorem claim_C6 (msg : String)
    (hs : stranded_indicators.any (fun i => strIn i (pyLower msg)) = true)
    (hm : money_indicators.any (fun i => strIn i (pyLower msg)) = true) :
    ({ category := "financial_scam_stranded",
       pattern := "stranded_money_combination",
       risk_level := .critical,
       explanation := "Stranded/stuck story combined with money request - classic advance fee scam",
       confidence :=
         if repayment_indicators.any (fun i => strIn i (pyLower msg)) then (0.95 : ℚ)
         else 0.9 } : RedFlag) ∈ analyze_advanced_financial_patterns msg := by
  simp only [analyze_advanced_financial_patterns, List.mem_append]
  refine Or.inl (Or.inl ?_)
  rw [hs, hm]
  simp

/-- C6 witness: a concrete stranded-plus-money message without a
repayment promise (confidence 0.9 branch). -/
theorem claim_C6_witness :
    ({ category := "financial_scam_stranded",
       pattern := "stranded_money_combination",
       risk_level := .critical,
       explanation := "Stranded/stuck story combined with money request - classic advance fee scam",
       confidence :=
         if repayment_indicators.any
             (fun i => strIn i (pyLower "im stranded please send cash")) then (0.95 : ℚ)
         else 0.9 } : RedFlag) ∈
      analyze_advanced_financial_patterns "im stranded please send cash" :=
  claim_C6 "im stranded please send cash" (by decide) (by decide)

lemma mem_filter_fp {msg : String} {flags : List RedFlag} {f : RedFlag}
    (h : f ∈ filter_false_positives false msg flags) :
    f ∈ flags ∧ is_false_positive (pyLower msg) f = false := by
  simp only [filter_false_positives, Bool.false_eq_true, if_false] at h
  have h2 := List.mem_filter.mp h
  refine ⟨h2.1, ?_⟩
  cases hb : is_false_positive (pyLower msg) f
  · rfl
  · have h3 := h2.2
    rw [hb] at h3
    cases h3

/-- C8: when the fixed positive-indicator list counts strictly more hits
than the negative-indicator list and at least one positive indicator is
present, the tone rule (rule 4 of the filter) drops every HIGH-severity
finding of confidence strictly below 0.9 from any candidate list, and the
tone rule never fires on a finding of any other severity. -/
theorem claim_C8 (msg : String) (flag : RedFlag)
    (hpos : positive_indicators.countP (fun i => strIn i (pyLower msg)) >
      negative_indicators.countP (fun i => strIn i (pyLower msg)))
    (hpos0 : 0 < positive_indicators.countP (fun i => strIn i (pyLower msg))) :
    (flag.risk_level = .high → flag.confidence < 0.9 →
      ∀ flags : List RedFlag, flag ∉ filter_false_positives false msg flags) ∧
    (flag.risk_level ≠ .high → fp_tone (pyLower msg) flag = false) := by
  have htone : is_positive_message_tone (pyLower msg) = true := by
    simp only [is_positive_message_tone]
    rw [Bool.and_eq_true]
    exact ⟨decide_eq_true hpos, decide_eq_true hpos0⟩
  constructor
  · intro hh hc flags hmem
    have hfp : is_false_positive (pyLower msg) flag = true := by
      unfold is_false_positive fp_tone
      rw [htone, hh, decide_eq_true hc]
      simp
    exact fp_not_mem_filter hfp hmem
  · intro hne
    have hx : (flag.risk_level == RiskLevel.high) = false := by
      cases hrl : flag.risk_level
      case high => exact absurd hrl hne
      all_goals rfl
    unfold fp_tone
    rw [hx]
    simp

/-- C8 witness: a concrete positive-tone message and a concrete HIGH flag
of confidence 0.8. -/
theorem claim_C8_witness :
    (((⟨"c", "p", RiskLevel.high, "e", 0.8⟩ : RedFlag).risk_level = .high →
        (⟨"c", "p", RiskLevel.high, "e", 0.8⟩ : RedFlag).confidence < 0.9 →
        ∀ flags : List RedFlag,
          (⟨"c", "p", RiskLevel.high, "e", 0.8⟩ : RedFlag) ∉
            filter_false_positives false "lol nice" flags) ∧
      ((⟨"c", "p", RiskLevel.high, "e", 0.8⟩ : RedFlag).risk_level ≠ .high →
        fp_tone (pyLower "lol nice") (⟨"c", "p", RiskLevel.high, "e", 0.8⟩ : RedFlag) =
          false)) :=
  claim_C8 "lol nice" ⟨"c", "p", RiskLevel.high, "e", 0.8⟩ (by decide) (by decide)

/-- C9: for every message containing injury-recovery phrasing (an
innocent-context phrase or a self/other-injury grammatical pattern), under
any sender context, no finding surviving in the result of
`analyze_message` has a category mentioning "threat" or "aggress". -/
theorem claim_C9 (msg : String) (ctx : Option SenderInfo)
    (hinj : innocent_contexts.any (fun c => strIn c (pyLower msg)) = true ∨
      self_injury_patterns.any (fun p => rxSearch p (pyLower msg)) = true) :
    ∀ f ∈ (analyze_message noFailure (some msg) ctx).red_flags,
      strIn "threat" f.category = false ∧ strIn "aggress" f.category = false := by
  intro f hf
  by_cases he : msg = ""
  · subst he
    exact absurd hf (by simp [analyze_message])
  · rw [analyze_message_normal he rfl ctx] at hf
    obtain ⟨hin, hnotfp⟩ := mem_filter_fp hf
    simp only [allCandidateFlags, List.mem_append] at hin
    rcases hin with (hd | ha) | hc
    · obtain ⟨t, ht, hcat, _, _⟩ := detect_mem hd
      simp only [catalogTriples, List.mem_cons, List.not_mem_nil, or_false] at ht
      rcases ht with ht|ht|ht|ht|ht|ht|ht|ht|ht|ht|ht <;> subst ht <;>
        first
          | exact ⟨by rw [hcat]; decide, by rw [hcat]; decide⟩
          | (exfalso
             have h1 : fp_injury (pyLower msg) f = true := by
               unfold fp_injury
               rw [hcat, Bool.and_eq_true]
               refine ⟨by decide, ?_⟩
               rcases hinj with h | h <;> rw [h] <;> simp
             have h2 : is_false_positive (pyLower msg) f = true := by
               unfold is_false_positive
               rw [h1]
               rfl
             rw [h2] at hnotfp
             cases hnotfp)
    · obtain ⟨hcat3, _, _⟩ := advanced_mem ha
      simp only [List.mem_cons, List.not_mem_nil, or_false] at hcat3
      rcases hcat3 with h|h|h <;> exact ⟨by rw [h]; decide, by rw [h]; decide⟩
    · cases ctx with
      | none => simp at hc
      | some si =>
          obtain ⟨hcat2, _, _⟩ := context_mem hc
          simp only [List.mem_cons, List.not_mem_nil, or_false] at hcat2
          rcases hcat2 with h|h <;> exact ⟨by rw [h]; decide, by rw [h]; decide⟩

/-- C9 witness: a concrete injury message, checked over the whole result
via the theorem. -/
theorem claim_C9_witness :
    (analyze_message noFailure (some "i hurt my back at the gym") none).red_flags.all
      (fun f => (!strIn "threat" f.category) && !strIn "aggress" f.category) = true :=
  List.all_eq_true.mpr (fun f hf => by
    obtain ⟨h1, h2⟩ :=
      claim_C9 "i hurt my back at the gym" none (Or.inl (by decide)) f hf
    rw [h1, h2]
    rfl)

example : rxSearch (seqs [.wordB, phrase "soulmate", .wordB]) "my soulmate!" = true := by decide
example : rxSearch (seqs [.wordB, phrase "love~you", .wordB]) "i love  you" = true := by decide
example : rxSearch (seqs [.wordB, phrase "you're~perfect", .wordB]) "you're perfect" = true := by decide
example : rxSearch (seqs [.wordB, phrase "you're~perfect", .wordB]) "you re perfect" = true := by decide
example : rxSearch (seqs [.wordB, phrase "you're~perfect", .wordB]) "youre perfect" = false := by decide
example : rxSearch (seqs [.wordB, phrase "emergency*money", .wordB]) "emergency need money" = true := by decide
example : rxSearch (seqs [.wordB, phrase "soulmate", .wordB]) "soulmates" = false := by decide
example : strIn "can't get home" "i can't get home now" = true := by decide
example : strIn "cash" "ca sh" = false := by decide

example : (analyze_message noFailure (some "send me nudes") none).risk_level = .high := by
  decide

example : (analyze_message noFailure (some "send me nudes") none).red_flags.map
    (fun f => f.category) = ["boundary_violations_sexual_content"] := by decide

example : (analyze_message noFailure (some "im stranded need cash") none).risk_level =
    .critical := by decide

example : (analyze_message noFailure (some "im stranded need cash") none).red_flags.map
    (fun f => f.category) =
    ["financial_scams_money_requests", "financial_scam_stranded"] := by decide

example : (analyze_message noFailure (some "im stranded need cash") none).confidence =
    0.85 := by with_unfolding_all decide

example : (analyze_message noFailure (some "you're crazy lol") none).red_flags = [] := by
  with_unfolding_all decide

example : (analyze_message noFailure (some "hi") none).risk_level = .low := by decide

example : (analyze_message noFailure (some "hi") none).recommendations =
    ["✅ Conversation appears relatively safe, but stay alert"] := by decide

end RFD
